import Mathlib

set_option maxRecDepth 100000
set_option maxHeartbeats 4000000

/-!
Shallow embedding of the `agent-sessions` rewrite scripts.

The repository consists of four Python scripts (`extract_git.py`,
`modify_main.py`, `modify_main_v2.py`, `modify_main_final.py`) that each
read `electron/main.ts` as a list of lines, run one imperative
while-loop over the line list performing five hardcoded edits, and write
the result back in place.  Below, `extract_git` embeds the main loop of
`extract_git.py` line by line, and `modify_main` embeds the main loop of
`modify_main.py`.  Python strings become Lean `String`, `p in s` becomes
substring containment over `List Char`, `lines[i]` becomes list
indexing (with an explicit `indexError` outcome where the source indexes
without a bounds guard), and the while-loops become structural recursion
on a fuel argument initialised to `lines.length`; since every loop
iteration strictly increases the index `i`, that fuel is never
exhausted, so the `fuelExhausted` outcome is unreachable.
-/

/-- Outcomes of a run of `extract_git.py`: either the new line list, or an
uncaught Python `IndexError` raised by an unguarded `lines[i]` access.
`fuelExhausted` is an artifact of the fuel-based embedding and is
unreachable from `extract_git` (the index strictly increases each
iteration and the fuel starts at `lines.length`). -/
inductive RunError
  | indexError
  | fuelExhausted

/-- Contiguous-sublist test on character lists: `containsSub pat s` is
true exactly when `pat` occurs as a contiguous run inside `s` (Python's
`pat in s` on strings). -/
def containsSub (pat : List Char) : List Char → Bool
  | [] => pat.isEmpty
  | c :: rest => pat.isPrefixOf (c :: rest) || containsSub pat rest

/-- Python `pat in line` (substring containment) on a line. -/
def subL (pat : List Char) (s : String) : Bool :=
  containsSub pat s.toList

/-- The whitespace set stripped by Python `str.strip()`. -/
def isPySpace (c : Char) : Bool :=
  c == ' ' || c == '\t' || c == '\n' || c == '\r' || c == '\x0b' || c == '\x0c'

/-- Python `s.strip()` on a line's character list. -/
def trimL (s : List Char) : List Char :=
  ((s.dropWhile isPySpace).reverse.dropWhile isPySpace).reverse

/-- Python `s.startswith(pat)`. -/
def startsWithL (pat s : List Char) : Bool :=
  pat.isPrefixOf s

/-- Python `''.join(lines[a:b])` as a character list (slice then
concatenate; `a` is already clamped to `0` by `Nat` subtraction, matching
`max(0, i-20)`). -/
def sliceJoin (lines : List String) (a b : Nat) : List Char :=
  (((lines.drop a).take (b - a)).map String.toList).flatten

/-- Pattern of `extract_git.py` line 25 / `modify_main.py` line 21 area:
`'generateFileId' in line`. -/
def genPat : List Char := "generateFileId".toList

/-- The import line inserted by all four scripts. -/
def importLine : String := "import \x7b registerGitHandlers, cleanupGitWatchers \x7d from \x27./services/git-service.js\x27\n"

/-- `'interface GitWatcherSet' in line` (extract_git.py line 33). -/
def interfacePat : List Char := "interface GitWatcherSet".toList

/-- `'const GIT_DEBOUNCE_MS' in lines[i]` (extract_git.py line 37). -/
def debouncePat : List Char := "const GIT_DEBOUNCE_MS".toList

/-- `"ipcMain.handle('git:get-info'" in line` (extract_git.py line 44). -/
def gitGetInfoPat : List Char := "ipcMain.handle(\x27git:get-info\x27".toList

/-- `"ipcMain.handle(" in lines[i]` (extract_git.py line 52). -/
def ipcHandlePat : List Char := "ipcMain.handle(".toList

/-- `"'git:pull'" not in lines[i]` (extract_git.py line 52). -/
def gitPullPat : List Char := "\x27git:pull\x27".toList

/-- `"// File system IPC handlers" in lines[i]` (extract_git.py line 56). -/
def fsCommentPat : List Char := "// File system IPC handlers".toList

/-- `'  })' in line` (extract_git.py line 63). -/
def closeBracePat : List Char := "  \x7d)".toList

/-- `'sshManager.on' in ''.join(...)` (extract_git.py line 63). -/
def sshOnPat : List Char := "sshManager.on".toList

/-- `"sshManager.on('status-change'" in lines[j]` (extract_git.py line 66). -/
def sshChangePat : List Char := "sshManager.on(\x27status-change\x27".toList

/-- Comment line inserted by step 4 (extract_git.py line 69). -/
def cmtLine : String := "  // Register all git-related IPC handlers\n"

/-- Registration call line inserted by step 4 (extract_git.py line 70). -/
def callLine : String := "  registerGitHandlers(mainWindow, sshManager, execInContextAsync)\n"

/-- `'// Clean up all git watchers' in line` (extract_git.py line 75). -/
def cleanupPat : List Char := "// Clean up all git watchers".toList

/-- First replacement line of step 5 (extract_git.py line 77). -/
def cleanupLine1 : String := "    // Clean up all git watchers\n"

/-- Second replacement line of step 5 (extract_git.py line 78). -/
def cleanupLine2 : String := "    cleanupGitWatchers()\n"

/-- `'gitWatchers.clear()' in lines[i]` (extract_git.py line 82). -/
def clearPat : List Char := "gitWatchers.clear()".toList

/-- `lines[i-1].strip().startswith("import { generateFileId")` pattern
(modify_main.py line 18). -/
def genImportPat : List Char := "import \x7b generateFileId".toList

/-- The inner scanning loop of extract_git.py lines 35-39 and 80-84:
`while i < len(lines): i += 1; if pat in lines[i]: i += 1; break`.
The access `lines[i]` after the increment is unguarded, so when the
pattern is absent the loop walks past the last line and raises
`IndexError`.  Fuel-based: one fuel unit per iteration; callers pass
`lines.length - i`, which bounds the iteration count. -/
def skipUntilGo (pat : List Char) (lines : List String) : Nat → Nat → Except RunError Nat
  | 0, i => .ok i
  | fuel+1, i =>
    if i < lines.length then
      match lines[i+1]? with
      | none => .error .indexError
      | some l => if containsSub pat l.toList then .ok (i + 2) else skipUntilGo pat lines fuel (i+1)
    else .ok i

/-- Entry point for the inner scanning loop, starting at index `i`. -/
def skipUntil (pat : List Char) (lines : List String) (i : Nat) : Except RunError Nat :=
  skipUntilGo pat lines (lines.length - i) i

/-- The inner loop of extract_git.py lines 47-58 (step 3): skip forward
until the next non-git `ipcMain.handle(` line or the file-system comment;
here the access is guarded (`if i >= len(lines): break`), so no
`IndexError` is possible. -/
def skipHandlersGo (lines : List String) : Nat → Nat → Nat
  | 0, i => i
  | fuel+1, i =>
    if i < lines.length then
      if lines.length ≤ i + 1 then i + 1
      else
        let l := lines.getD (i+1) ""
        if containsSub ipcHandlePat l.toList && !(containsSub gitPullPat l.toList) then i + 1
        else if containsSub fsCommentPat l.toList then i + 1
        else skipHandlersGo lines fuel (i+1)
    else i

/-- Entry point for step 3's skip loop. -/
def skipHandlers (lines : List String) (i : Nat) : Nat :=
  skipHandlersGo lines (lines.length - i) i

/-- Propagate an inner-loop result into a step result with emitted lines. -/
def withSkip (r : Except RunError Nat) (emit : List String) : Except RunError (List String × Nat) :=
  match r with
  | .error e => .error e
  | .ok j => .ok (emit, j)

/-- The inner `for j in range(max(0, i-20), i)` loop of extract_git.py
lines 65-72 (step 4).  For each `j` whose line contains the
status-change pattern it appends the closing line plus the three
registration lines and increments `i`; the Python `continue` inside this
loop only advances `j`, so after the loop control still falls through to
the default copy-and-advance path. Returns the appended lines and the
total increment applied to `i`. -/
def step4Loop (lines : List String) (line : String) : List Nat → List String × Nat
  | [] => ([], 0)
  | j :: js =>
    if subL sshChangePat (lines.getD j "") then
      let r := step4Loop lines line js
      (line :: "\n" :: cmtLine :: callLine :: r.1, r.2 + 1)
    else step4Loop lines line js

/-- One iteration of the main while-loop of `extract_git.py` (lines
21-89), with `line = lines[i]`.  Returns the lines appended to
`new_lines` by this iteration and the next value of `i`.  Steps 1-3 and 5
end in `continue`; step 4 falls through to step 5 and to the default
copy-and-advance path, which is why its emitted lines and index
increments are accumulated into whichever of those paths runs. -/
def extractStep (lines : List String) (i : Nat) (line : String) :
    Except RunError (List String × Nat) :=
  if (i == 16) && subL genPat line then
    .ok ([line, importLine], i + 1)
  else if subL interfacePat line then
    withSkip (skipUntil debouncePat lines i) []
  else if subL gitGetInfoPat line then
    .ok ([], skipHandlers lines i)
  else
    let s4 :=
      if decide (0 < i) && subL closeBracePat line
          && containsSub sshOnPat (sliceJoin lines (i - 20) i) then
        step4Loop lines line (List.range' (i - 20) (i - (i - 20)))
      else ([], 0)
    if subL cleanupPat line then
      withSkip (skipUntil clearPat lines (i + s4.2)) (s4.1 ++ [cleanupLine1, cleanupLine2])
    else
      .ok (s4.1 ++ [line], i + s4.2 + 1)

/-- The main while-loop of `extract_git.py`, fuel-based.  Every
iteration strictly increases `i`, so with initial fuel `lines.length`
the `fuelExhausted` branch is unreachable. -/
def extractLoop (lines : List String) : Nat → Nat → Except RunError (List String)
  | 0, i => if i < lines.length then .error .fuelExhausted else .ok []
  | fuel+1, i =>
    if i < lines.length then
      match extractStep lines i (lines.getD i "") with
      | .error e => .error e
      | .ok pr =>
        match extractLoop lines fuel pr.2 with
        | .error e => .error e
        | .ok rest => .ok (pr.1 ++ rest)
    else .ok []

/-- `extract_git.py`'s `main()`: the transformation applied to the line
list read from `electron/main.ts`. -/
def extract_git (lines : List String) : Except RunError (List String) :=
  extractLoop lines lines.length 0

/-- One iteration of the main while-loop of `modify_main.py` (lines
13-59), with `line = lines[i]` and `line_num = i + 1`.  All five steps
are gated on an exact hardcoded line number conjoined with a content
check; step 3's inner context check falls through to the later steps
when it fails.  No access is unguarded, so the function is total. -/
def modifyStep (lines : List String) (i : Nat) (line : String) : List String × Nat :=
  if (i + 1 == 17) && startsWithL genImportPat (trimL ((lines.getD (i-1) "").toList)) then
    ([importLine, line], i + 1)
  else if (i + 1 == 434) && subL interfacePat line then
    ([], i + 10)
  else if (i + 1 == 492) && subL closeBracePat line && decide (0 < i)
      && containsSub sshChangePat (sliceJoin lines (i - 10) i) then
    ([line, "\n", cmtLine, callLine], i + 1)
  else if (i + 1 == 978) && subL gitGetInfoPat line then
    ([], i + 701)
  else if (i + 1 == 507) && subL cleanupPat line then
    ([cleanupLine1, cleanupLine2], i + 13)
  else
    ([line], i + 1)

/-- The main while-loop of `modify_main.py`, fuel-based; every iteration
strictly increases `i`, so fuel `lines.length` never runs out. -/
def modifyLoop (lines : List String) : Nat → Nat → List String
  | 0, _ => []
  | fuel+1, i =>
    if i < lines.length then
      let pr := modifyStep lines i (lines.getD i "")
      pr.1 ++ modifyLoop lines fuel pr.2
    else []

/-- `modify_main.py`'s `main()`: the transformation applied to the line
list read from `electron/main.ts`. -/
def modify_main (lines : List String) : List String :=
  modifyLoop lines lines.length 0

/-- File-system operations performed by a run, as written in the source:
`open(path).readlines()`, then `open(path, 'w').writelines(...)` which
truncates and rewrites the original path in place.  No other operation
(in particular no temporary-file write and no rename) appears anywhere
in the scripts. -/
inductive FsOp
  | read (path : String)
  | write (path : String) (content : List String)
  | rename (src : String) (dst : String)

/-- Whether an operation is a rename. -/
def FsOp.isRename : FsOp → Bool
  | .rename _ _ => true
  | _ => false

/-- The hardcoded target path of all four scripts. -/
def mainPath : String := "electron/main.ts"

/-- The I/O trace of one run of `extract_git.py`: the file is read, and
if the loop completes, the result is written in place to the same path
(extract_git.py lines 14 and 91-93); if an `IndexError` escapes, the
write is never reached. -/
def extractRun (lines : List String) : List FsOp :=
  match extract_git lines with
  | .ok out => [.read mainPath, .write mainPath out]
  | .error _ => [.read mainPath]

/-- Every operation in a trace is either the read or an in-place write to
the original path — never a temp write or a rename. -/
def writesInPlaceOnly (t : List FsOp) : Bool :=
  t.all fun op =>
    match op with
    | .rename _ _ => false
    | .write p _ => p == mainPath
    | .read _ => true

/-- C1 counterexample document: the interface pattern sits at line 1. -/
def exC1c : List String := ["interface GitWatcherSet \x7b\n", "u\n"]

/-- C2 example: a document whose line at index 16 contains
`generateFileId`, so `extract_git.py` step 1 fires. -/
def exC2 : List String :=
  List.replicate 16 "x\n" ++ ["const fileId = generateFileId(file)\n", "y\n"]

/-- Output of the first `extract_git` run on `exC2`. -/
def exC2out1 : List String :=
  List.replicate 16 "x\n" ++ ["const fileId = generateFileId(file)\n", importLine, "y\n"]

/-- Output of the second `extract_git` run (on `exC2out1`): the import is
inserted again. -/
def exC2out2 : List String :=
  List.replicate 16 "x\n"
    ++ ["const fileId = generateFileId(file)\n", importLine, importLine, "y\n"]

/-- C3 example: a document containing the import anchor but none of the
other intents' anchors (no interface block, no git handlers, no cleanup
block). -/
def exC3 : List String :=
  List.replicate 16 "a\n" ++ ["const id = generateFileId()\n", "b\n"]

/-- Output of `extract_git` on `exC3`: only the import intent applied. -/
def exC3out : List String :=
  List.replicate 16 "a\n" ++ ["const id = generateFileId()\n", importLine, "b\n"]

/-- C4 example document. -/
def exC4 : List String := List.replicate 16 "w\n" ++ ["uses generateFileId here\n"]

/-- Output of `extract_git` on `exC4`. -/
def exC4out : List String :=
  List.replicate 16 "w\n" ++ ["uses generateFileId here\n", importLine]

/-- C5 example document D: import anchor at index 16. -/
def exC5 : List String :=
  List.replicate 16 "m\n" ++ ["let x = generateFileId(y)\n", "n\n"]

/-- Output of `extract_git` on `exC5`. -/
def exC5out : List String :=
  List.replicate 16 "m\n" ++ ["let x = generateFileId(y)\n", importLine, "n\n"]

/-- C5 example document D-prime: one unrelated line inserted earlier in
the file, shifting every subsequent index by one. -/
def exC5sh : List String := "// unrelated comment\n" :: exC5

/-- C6 example: the handler anchor (`git:get-info`) lies strictly inside
the interface block's range (between the interface start line and the
`GIT_DEBOUNCE_MS` terminator), so the two deletions' resolved ranges
intersect. -/
def exC6 : List String :=
  ["a\n", "interface GitWatcherSet \x7b\n",
   "ipcMain.handle(\x27git:get-info\x27, async () => \x7b\n",
   "const GIT_DEBOUNCE_MS = 500\n", "rest of handler\n", "b\n"]

/-- Output of `extract_git` on `exC6`: the contained anchor is silently
swallowed by the interface skip, the handler body survives, and no error
is raised. -/
def exC6out : List String := ["a\n", "rest of handler\n", "b\n"]

/-- C7 example: two lines match the `GIT_DEBOUNCE_MS` terminator pattern
within the interface skip's search window. -/
def exC7 : List String :=
  ["interface GitWatcherSet \x7b\n", "w\n", "const GIT_DEBOUNCE_MS = 1\n",
   "const GIT_DEBOUNCE_MS = 2\n", "t\n"]

/-- Output of `extract_git` on `exC7`: the scan stops at the first match
and the second matching line survives; no ambiguity error. -/
def exC7out : List String := ["const GIT_DEBOUNCE_MS = 2\n", "t\n"]

/-- The `sshManager.on('status-change' ...` opening line used by the
step-4 examples. -/
def sshLine : String := "  sshManager.on(\x27status-change\x27, () => \x7b\n"

/-- The `  })` closing line of the status-change block. -/
def closeLine : String := "  \x7d)\n"

/-- C8 example: a status-change block whose closing line is followed by
one more line. -/
def exC8 : List String := [sshLine, closeLine, "dropped line\n", "z\n"]

/-- Output of `extract_git` on `exC8`: the closing line is emitted twice
(once by the inner for-loop, once by the default copy path) and
`"dropped line\n"` is skipped because `i` was advanced twice. -/
def exC8out : List String :=
  [sshLine, closeLine, "\n", cmtLine, callLine, closeLine, "z\n"]

/-- C9: the `interface GitWatcherSet` opening line. -/
def gitIntfLine : String := "interface GitWatcherSet \x7b\n"


/-! ## Helper lemmas -/

/-- If no line strictly after index `i` contains the pattern, the inner
scanning loop (extract_git.py lines 35-39 / 80-84) walks off the end of
the list and raises `IndexError`. -/
theorem skipUntilGo_err (pat : List Char) (lines : List String) :
    ∀ fuel i, lines.length - i = fuel → i < lines.length →
      (∀ j, i < j → ∀ l, lines[j]? = some l → containsSub pat l.toList = false) →
      skipUntilGo pat lines fuel i = .error .indexError := by
  intro fuel
  induction fuel with
  | zero =>
    intro i hf hi _
    omega
  | succ f ih =>
    intro i hf hi hno
    simp only [skipUntilGo]
    rw [if_pos hi]
    cases hl : lines[i+1]? with
    | none => rfl
    | some l =>
      have hi1 : i + 1 < lines.length := by
        by_contra hcon
        rw [List.getElem?_eq_none (by omega)] at hl
        exact Option.noConfusion hl
      simp only [hno (i+1) (by omega) l hl, Bool.false_eq_true, if_false]
      exact ih (i+1) (by omega) hi1 (fun j hj l2 hl2 => hno j (by omega) l2 hl2)

/-- Entry-point version of `skipUntilGo_err`. -/
theorem skipUntil_err (pat : List Char) (lines : List String) (i : Nat)
    (hi : i < lines.length)
    (hno : ∀ j, i < j → ∀ l, lines[j]? = some l → containsSub pat l.toList = false) :
    skipUntil pat lines i = .error .indexError :=
  skipUntilGo_err pat lines (lines.length - i) i rfl hi hno

/-- An error raised by a loop iteration propagates out of the main loop
(the Python exception escapes `main`). -/
theorem extractLoop_err (lines : List String) (fuel i : Nat) (e : RunError)
    (hi : i < lines.length)
    (hs : extractStep lines i (lines.getD i "") = .error e) :
    extractLoop lines (fuel+1) i = .error e := by
  simp only [extractLoop]
  rw [if_pos hi, hs]

/-! ## Claim theorems -/

/-- C1 (counterexample): a document whose first line contains the
`interface GitWatcherSet` anchor pattern, but at line 1 rather than at
the hardcoded line 434.  `modify_main.py` leaves the document completely
unchanged: the edit does not apply where the content pattern matches,
refuting "the edit applies wherever its content pattern matches
regardless of the line's absolute index". -/
theorem C1_counterexample :
    subL interfacePat (exC1c.getD 0 "") = true ∧ modify_main exC1c = exC1c :=
  ⟨rfl, rfl⟩

/-- C1 (amended): in `modify_main.py` the caller-supplied absolute line
number is a required source of truth conjoined with the content check:
on a line whose content contains `interface GitWatcherSet`, the step-2
deletion applies exactly when the line sits at hardcoded line 434
(`line_num == 434`); at every other line number (other than 17, which is
gated by the separate import step) the line is copied verbatim, with no
edit and no warning. -/
theorem C1_line_number_gate (lines : List String) (i : Nat) (h17 : i + 1 ≠ 17) :
    modifyStep lines i gitIntfLine =
      if i + 1 = 434 then ([], i + 10) else ([gitIntfLine], i + 1) := by
  by_cases h434 : i + 1 = 434
  · have hi : i = 433 := by omega
    subst hi
    rfl
  · rw [if_neg h434]
    have e1 : (i + 1 == 17) = false := by simpa using h17
    have e2 : (i + 1 == 434) = false := by simpa using h434
    have e3 : subL closeBracePat gitIntfLine = false := rfl
    have e4 : subL gitGetInfoPat gitIntfLine = false := rfl
    have e5 : subL cleanupPat gitIntfLine = false := rfl
    unfold modifyStep
    rw [e1, e2, e3, e4, e5]
    simp

/-- C1 witness: the amended theorem applied at the hardcoded index 433
(line 434). -/
theorem C1_line_number_gate_witness :
    (433 + 1 ≠ 17) ∧
      modifyStep [] 433 gitIntfLine =
        (if 433 + 1 = 434 then ([], 433 + 10) else ([gitIntfLine], 433 + 1)) :=
  ⟨by decide, C1_line_number_gate [] 433 (by decide)⟩

/-- C2 (counterexample): `extract_git` applied to its own output is not a
no-op: the second run inserts the git-service import a second time, its
output differs from the first run's output, and the second run's I/O
trace still contains a write (the scripts write unconditionally; there
is no AlreadyApplied detection and no global no-op path). -/
theorem C2_counterexample :
    extract_git exC2 = .ok exC2out1 ∧ extract_git exC2out1 = .ok exC2out2 ∧
      exC2out2 ≠ exC2out1 ∧
      extractRun exC2out1 = [.read mainPath, .write mainPath exC2out2] :=
  ⟨rfl, rfl, by decide, rfl⟩

/-- C2 (amended): the transformation is not idempotent: re-running
`extract_git.py` on its own output duplicates the inserted import line
(count 1 after one run, count 2 after two), and every successful run
writes the file unconditionally. -/
theorem C2_reapply_duplicates :
    exC2out1.count importLine = 1 ∧ exC2out2.count importLine = 2 ∧
      extract_git exC2out1 = .ok exC2out2 :=
  ⟨by rfl, by rfl, rfl⟩

/-- C3 (counterexample): `exC3` contains no line matching the
`interface GitWatcherSet` anchor (nor any other step's anchor except
the import marker), yet the run does not fail with any anchor error: it
applies the import edit alone, produces output different from the input,
and writes it — a proper subset of the intents' edits lands in the final
file. -/
theorem C3_counterexample :
    exC3.all (fun l => !(subL interfacePat l)) = true ∧
      extract_git exC3 = .ok exC3out ∧ exC3out ≠ exC3 ∧
      extractRun exC3 = [.read mainPath, .write mainPath exC3out] :=
  ⟨rfl, rfl, by decide, rfl⟩

/-- C3 (amended): the scripts have no `AnchorNotFound` outcome at all:
each step fires independently when its own pattern condition matches, so
a document in which some intents' anchors are absent still receives the
remaining intents' edits (here: the import is inserted although the
cleanup-block anchor, among others, is absent) and is rewritten. -/
theorem C3_missing_anchor_still_writes :
    exC3.all (fun l => !(subL cleanupPat l)) = true ∧
      importLine ∉ exC3 ∧ importLine ∈ exC3out ∧ extract_git exC3 = .ok exC3out :=
  ⟨rfl, by decide, by decide, rfl⟩

/-- C4 (counterexample): the I/O trace of a successful run is exactly
one read of `electron/main.ts` followed by one truncating in-place write
to that same path; it contains no write to a temporary path and no
rename operation, refuting "written to a temporary path and only
atomically renamed into the original path". -/
theorem C4_counterexample :
    extractRun exC4 = [.read mainPath, .write mainPath exC4out] ∧
      (extractRun exC4).all (fun op => !(FsOp.isRename op)) = true :=
  ⟨rfl, rfl⟩

/-- C4 (amended): for every input document, every operation in the run's
I/O trace is either the initial read or an in-place write directly to
the original path; no temporary file and no rename ever occur, so an
interruption mid-write can leave the original file truncated. -/
theorem C4_in_place_write (doc : List String) :
    writesInPlaceOnly (extractRun doc) = true := by
  unfold extractRun
  cases extract_git doc <;> rfl

/-- C4 witness: the amended theorem applied at a concrete document. -/
theorem C4_in_place_write_witness : writesInPlaceOnly (extractRun exC4) = true :=
  C4_in_place_write exC4

/-- C5 (counterexample): `exC5sh` is `exC5` with one unrelated comment
line inserted at the top (shifting every index by one).  On `exC5`
the import edit applies; on `exC5sh` the run changes nothing, so the two
runs do not produce semantically equivalent edits. -/
theorem C5_counterexample :
    extract_git exC5 = .ok exC5out ∧ importLine ∈ exC5out ∧
      extract_git exC5sh = .ok exC5sh ∧ importLine ∉ exC5sh :=
  ⟨rfl, by decide, rfl, by decide⟩

/-- C5 (amended): the transformation is not line-number invariant:
inserting one unrelated line earlier in the file makes the hardcoded
index check (`i == 16` for the import step) miss, so the shifted
document receives no edit at all while the unshifted one is edited. -/
theorem C5_shift_sensitivity :
    extract_git exC5sh = .ok exC5sh ∧ extract_git exC5 = .ok exC5out ∧
      exC5out ≠ exC5 :=
  ⟨rfl, rfl, by decide⟩

/-- C6 (counterexample): in `exC6` the `git:get-info` handler anchor
(line index 2) lies strictly between the interface anchor (index 1) and
its `GIT_DEBOUNCE_MS` terminator (index 3), so the two deletions'
resolved ranges intersect; yet the run yields no `RangeOverlap` — it
completes normally and writes the result. -/
theorem C6_counterexample :
    subL interfacePat (exC6.getD 1 "") = true ∧
      subL gitGetInfoPat (exC6.getD 2 "") = true ∧
      subL debouncePat (exC6.getD 3 "") = true ∧
      extract_git exC6 = .ok exC6out ∧
      extractRun exC6 = [.read mainPath, .write mainPath exC6out] :=
  ⟨rfl, rfl, rfl, rfl, rfl⟩

/-- C6 (amended): the scripts perform no overlap detection: when one
skip region contains another intent's anchor, the inner anchor is
silently consumed by the first skip loop (the handler deletion never
fires — its body survives in the output), and the modified result is
still produced and written. -/
theorem C6_overlap_swallowed :
    extract_git exC6 = .ok exC6out ∧ "rest of handler\n" ∈ exC6out ∧
      exC6out ≠ exC6 :=
  ⟨rfl, by decide, by decide⟩

/-- C7 (counterexample): in `exC7` two distinct lines (indices 2 and 3)
match the `GIT_DEBOUNCE_MS` terminator pattern within the interface
skip's forward window, yet resolution is not an error: the run completes
normally with the first match taken. -/
theorem C7_counterexample :
    subL debouncePat (exC7.getD 2 "") = true ∧
      subL debouncePat (exC7.getD 3 "") = true ∧
      extract_git exC7 = .ok exC7out :=
  ⟨rfl, rfl, rfl⟩

/-- C7 (amended): ambiguity is not detected: with several candidate
matches in the window the scan loops stop at the first one (the second
matching line survives verbatim in the output) and the run completes
normally — a best-guess first-match pick, not a hard error. -/
theorem C7_first_match_wins :
    extract_git exC7 = .ok exC7out ∧ "const GIT_DEBOUNCE_MS = 2\n" ∈ exC7out ∧
      "const GIT_DEBOUNCE_MS = 1\n" ∉ exC7out :=
  ⟨rfl, by decide, by decide⟩

/-- C8 (code bug): on `exC8` — a status-change block whose `  })`
closing line is followed by one more line — the closing line appears
twice in the output and the immediately following line, which lies
outside every operation's range, is dropped, violating the verbatim-copy
frame property.  The cause is extract_git.py line 72: the `continue`
inside the `for j` loop only advances `j`, so control falls through to
the default copy-and-advance path after `i` was already incremented. -/
theorem C8_dropped_line :
    extract_git exC8 = .ok exC8out ∧ "dropped line\n" ∈ exC8 ∧
      "dropped line\n" ∉ exC8out ∧ exC8out.count closeLine = 2 :=
  ⟨rfl, by decide, by decide, by rfl⟩

/-- C9 (confirmed): for every document that opens with the
`interface GitWatcherSet` block-start marker and contains no subsequent
line matching the `const GIT_DEBOUNCE_MS` terminator, the forward
scanning skip loop of extract_git.py lines 35-39 increments its index
past the last line, indexes the line list out of bounds, and the run
aborts with an uncaught `IndexError` — not with a reported anchor
error. -/
theorem C9_missing_terminator (rest : List String)
    (h : ∀ l ∈ rest, subL debouncePat l = false) :
    extract_git (gitIntfLine :: rest) = .error .indexError := by
  have hno : ∀ j, 0 < j → ∀ l, (gitIntfLine :: rest)[j]? = some l →
      containsSub debouncePat l.toList = false := by
    intro j hj l hl
    obtain ⟨k, rfl⟩ : ∃ k, j = k + 1 := ⟨j - 1, by omega⟩
    rw [List.getElem?_cons_succ] at hl
    have hk : k < rest.length := by
      by_contra hcon
      rw [List.getElem?_eq_none (by omega)] at hl
      exact Option.noConfusion hl
    rw [List.getElem?_eq_getElem hk] at hl
    have hmem : l ∈ rest := by
      cases hl
      exact List.getElem_mem hk
    exact h l hmem
  have hskip : skipUntil debouncePat (gitIntfLine :: rest) 0 = .error .indexError :=
    skipUntil_err debouncePat (gitIntfLine :: rest) 0 (by simp) hno
  have hstep : extractStep (gitIntfLine :: rest) 0 ((gitIntfLine :: rest).getD 0 "") =
      .error .indexError := by
    have hform : extractStep (gitIntfLine :: rest) 0 ((gitIntfLine :: rest).getD 0 "") =
        withSkip (skipUntil debouncePat (gitIntfLine :: rest) 0) [] := rfl
    rw [hform, hskip]
    rfl
  have hunf : extract_git (gitIntfLine :: rest) =
      extractLoop (gitIntfLine :: rest) (rest.length + 1) 0 := by
    unfold extract_git
    rw [List.length_cons]
  rw [hunf]
  exact extractLoop_err (gitIntfLine :: rest) rest.length 0 .indexError (by simp) hstep

/-- C9 witness: the theorem applied at the concrete one-line tail
`["y\n"]`, which contains no terminator line. -/
theorem C9_missing_terminator_witness :
    (∀ l ∈ ["y\n"], subL debouncePat l = false) ∧
      extract_git (gitIntfLine :: ["y\n"]) = .error .indexError :=
  ⟨by decide, C9_missing_terminator ["y\n"] (by decide)⟩

/-- C10 (confirmed): whenever the registration-insertion condition fires
(a `  })` line preceded in the previous 20 lines by a
`sshManager.on('status-change'` line), the output contains the closing
line twice — once before and once after the inserted registration lines
— and the input line immediately following it (here arbitrary) is
dropped: the inner for-loop's `continue` does not bypass the default
copy-and-advance path, so the closing line is copied again and `i` is
advanced past the next line.  The output is independent of `after` and
does not contain it. -/
theorem C10_duplicate_and_drop (after : String) :
    extract_git ["a\n", sshLine, closeLine, after, "z\n"] =
      .ok ["a\n", sshLine, closeLine, "\n", cmtLine, callLine, closeLine, "z\n"] :=
  rfl

/-- C10 witness: the theorem applied at a concrete dropped line. -/
theorem C10_duplicate_and_drop_witness :
    extract_git ["a\n", sshLine, closeLine, "dropped\n", "z\n"] =
      .ok ["a\n", sshLine, closeLine, "\n", cmtLine, callLine, closeLine, "z\n"] :=
  C10_duplicate_and_drop "dropped\n"
